import Mathlib

/-!
Shallow embedding of the Workout Session Lifecycle Engine of `src/App.js`
(Session Controller, Set Logger, Rest Timer, Log Sync hand-off).

Modelling conventions:
* All user-entered values (`reps`, `weight`, `bodyWeight`, `targetSets`, ...)
  are DOM input values, i.e. strings; numeric fields are modelled by their
  decimal string form, matching what the `<input>` elements deliver.
* Timestamps (`serverTimestamp()`) are modelled as a `Nat` parameter supplied
  to the operation at call time.
* The Firebase bootstrap (`db`, `userId`) is out-of-scope plumbing and is
  assumed present; the remote `addDoc` append is modelled by a Boolean
  `appendOk` parameter saying whether the transport succeeded.
* A JavaScript runtime exception thrown inside a handler (TypeError on an
  undefined index access, RangeError on an invalid array length) is modelled
  by the handler returning `none`.
-/

structure LoggedSet where
  reps : String
  weight : String
  completed : Bool
  deriving DecidableEq

structure TemplateExercise where
  id : String
  name : String
  targetSets : String
  targetReps : String
  targetWeight : String
  deriving DecidableEq

structure WorkoutTemplate where
  id : String
  name : String
  exercises : List TemplateExercise
  deriving DecidableEq

structure SessionExercise where
  id : String
  name : String
  targetSets : String
  targetReps : String
  targetWeight : String
  loggedSets : List LoggedSet
  deriving DecidableEq

structure ActiveWorkout where
  templateId : String
  name : String
  startTime : Nat
  bodyWeight : String
  notes : String
  exercises : List SessionExercise
  isCompleted : Bool
  deriving DecidableEq

/-- The record built by `handleFinishWorkout`: every `ActiveWorkout` field
(spread) plus `endTime`, with `exercises[].loggedSets` filtered. -/
structure WorkoutLog where
  templateId : String
  name : String
  startTime : Nat
  bodyWeight : String
  notes : String
  exercises : List SessionExercise
  isCompleted : Bool
  endTime : Nat
  deriving DecidableEq

/-- The three timer `useState` cells of `App.js` (lines 32-34). -/
structure TimerState where
  timerActive : Bool
  timerPaused : Bool
  timerSeconds : Nat
  deriving DecidableEq

/-- The mutable app state relevant to the session lifecycle engine:
`activeWorkout`, the timer cells, the `bodyWeight` / `workoutNotes` input
buffers, `showBodyWeightInput`, and `currentScreen`.  The template list,
history feed and auth state are external plumbing (spec section 1). -/
structure AppState where
  activeWorkout : Option ActiveWorkout
  timer : TimerState
  bodyWeight : String
  workoutNotes : String
  showBodyWeightInput : Bool
  currentScreen : String
  deriving DecidableEq

/-- Error taxonomy of the spec; the only failure the source actually surfaces
as a caught error is the Log Sync append failure (the `catch` in
`handleFinishWorkout`), named `PersistenceError` by the spec. -/
inductive AppError where
  | persistenceError
  deriving DecidableEq

/-- The two set-record fields the UI passes to `handleSetInputChange`. -/
inductive SetField where
  | reps
  | weight
  deriving DecidableEq

/-- Value of a leading run of decimal digits. -/
def jsDigitsToNat (ds : List Char) : Nat :=
  ds.foldl (fun a c => 10 * a + (c.toNat - 48)) 0

/-- JavaScript `parseInt(s, 10)`: skip leading whitespace, read an optional
sign, then the longest leading run of decimal digits; the result is `NaN`
(here `none`) when no digit is found. -/
def jsParseInt (s : String) : Option Int :=
  let cs := s.data.dropWhile (fun c => c.isWhitespace)
  match cs with
  | '-' :: rest =>
    let ds := rest.takeWhile (fun c => c.isDigit)
    if ds.isEmpty then none else some (-(jsDigitsToNat ds : Int))
  | '+' :: rest =>
    let ds := rest.takeWhile (fun c => c.isDigit)
    if ds.isEmpty then none else some ((jsDigitsToNat ds : Int))
  | _ =>
    let ds := cs.takeWhile (fun c => c.isDigit)
    if ds.isEmpty then none else some ((jsDigitsToNat ds : Int))

/-- JavaScript `v || 1` applied to a `parseInt` result: the falsy values
`NaN` and `0` are replaced by `1`, every other integer passes through. -/
def jsOrOne (v : Option Int) : Int :=
  match v with
  | none => 1
  | some k => if k = 0 then 1 else k

def emptyLoggedSet : LoggedSet := { reps := "", weight := "", completed := false }

/-- `Array(parseInt(ex.targetSets, 10) || 1).fill(null).map(() => ({reps: '',
weight: '', completed: false}))` (App.js line 247).  `Array(n)` yields `n`
slots when `n` is an integer with `0 ≤ n < 2^32` and throws a `RangeError`
otherwise (modelled as `none`). -/
def mkLoggedSets (targetSets : String) : Option (List LoggedSet) :=
  let n : Int := jsOrOne (jsParseInt targetSets)
  if 0 ≤ n ∧ n < 4294967296 then some (List.replicate n.toNat emptyLoggedSet)
  else none

/-- `workoutTemplate.exercises.map(ex => ({...ex, loggedSets: ...}))`:
each template exercise is copied (id, name, targets) and seeded with its
placeholder sets; a throw from any element aborts the whole map. -/
def buildSessionExercises : List TemplateExercise → Option (List SessionExercise)
  | [] => some []
  | ex :: rest =>
    match mkLoggedSets ex.targetSets, buildSessionExercises rest with
    | some ls, some tail =>
      some ({ id := ex.id, name := ex.name, targetSets := ex.targetSets,
              targetReps := ex.targetReps, targetWeight := ex.targetWeight,
              loggedSets := ls } :: tail)
    | _, _ => none

/-- `handleStartWorkout` (App.js lines 238-256).  Note that the source never
inspects the current `activeWorkout`: the new session is installed
unconditionally, and the notes / body-weight buffers are cleared. -/
def handleStartWorkout (t : WorkoutTemplate) (now : Nat) (s : AppState) :
    Option AppState :=
  match buildSessionExercises t.exercises with
  | none => none
  | some exs =>
    some { s with
      activeWorkout := some { templateId := t.id, name := t.name,
                              startTime := now, bodyWeight := "", notes := "",
                              exercises := exs, isCompleted := false },
      workoutNotes := "", bodyWeight := "", showBodyWeightInput := true,
      currentScreen := "activeWorkout" }

/-- `startTimer` (App.js lines 141-145); its single call site,
`handleLogSet`, uses the default duration 180. -/
def startTimer (duration : Nat) : TimerState :=
  { timerActive := true, timerPaused := false, timerSeconds := duration }

/-- `pauseTimer` (App.js line 147): sets the paused flag, nothing else. -/
def pauseTimer (t : TimerState) : TimerState := { t with timerPaused := true }

/-- `resumeTimer` (App.js line 148). -/
def resumeTimer (t : TimerState) : TimerState := { t with timerPaused := false }

/-- `stopTimer` (App.js lines 149-153): resets to the 180-second default. -/
def stopTimer : TimerState :=
  { timerActive := false, timerPaused := false, timerSeconds := 180 }

/-- One firing of the interval callback (App.js lines 122-139): the interval
only exists while `timerActive && !timerPaused`; the callback decrements,
and at `prev <= 1` clears the interval, sets `timerActive` to false and
leaves the count at 0. -/
def tick (t : TimerState) : TimerState :=
  if t.timerActive && !t.timerPaused then
    if t.timerSeconds ≤ 1 then
      { timerActive := false, timerPaused := t.timerPaused, timerSeconds := 0 }
    else { t with timerSeconds := t.timerSeconds - 1 }
  else t

/-- `n` consecutive one-second ticks. -/
def ticks : Nat → TimerState → TimerState
  | 0, t => t
  | n + 1, t => ticks n (tick t)

/-- `formatTime` (App.js lines 155-159):
`minutes + ":" + (seconds < 10 ? "0" : "") + seconds`. -/
def formatTime (totalSeconds : Nat) : String :=
  toString (totalSeconds / 60) ++ ":" ++
    ((if totalSeconds % 60 < 10 then "0" else "") ++ toString (totalSeconds % 60))

/-- JavaScript array index assignment `xs[i] = v`: in range it overwrites;
past the end it extends the array to length `i + 1`.  The skipped slots are
holes; every observation this program performs on a set list
(`filter(s => s.completed)`, rendering) treats a hole exactly like an empty
uncompleted placeholder, which is how holes are modelled here. -/
def jsArrayWrite (xs : List LoggedSet) (i : Nat) (v : LoggedSet) :
    List LoggedSet :=
  if i < xs.length then xs.set i v
  else xs ++ List.replicate (i - xs.length) emptyLoggedSet ++ [v]

/-- `handleLogSet` (App.js lines 258-265): writes `{reps, weight,
completed: true}` at the given indices and restarts the rest timer with the
default 180 seconds.  An out-of-range `exerciseIndex` makes
`undefined.loggedSets` throw a TypeError (`none`); an out-of-range
`setIndex` does NOT throw — the assignment extends the array. -/
def handleLogSet (exerciseIndex setIndex : Nat) (reps weight : String)
    (s : AppState) : Option AppState :=
  match s.activeWorkout with
  | none => none
  | some w =>
    if h : exerciseIndex < w.exercises.length then
      let ex := w.exercises.get ⟨exerciseIndex, h⟩
      let newSet : LoggedSet := { reps := reps, weight := weight, completed := true }
      let ex2 : SessionExercise :=
        { ex with loggedSets := jsArrayWrite ex.loggedSets setIndex newSet }
      some { s with activeWorkout := some { w with exercises := w.exercises.set exerciseIndex ex2 },
                    timer := startTimer 180 }
    else none

/-- `handleSetInputChange` (App.js lines 275-283): deep-copies the session
and writes one field of one set.  Reading `loggedSets[setIndex]` of an
out-of-range `setIndex` yields `undefined`, so the subsequent
`undefined[field] = value` throws a TypeError (`none`); likewise for an
out-of-range `exerciseIndex`. -/
def handleSetInputChange (exerciseIndex setIndex : Nat) (field : SetField)
    (value : String) (s : AppState) : Option AppState :=
  match s.activeWorkout with
  | none => none
  | some w =>
    if h : exerciseIndex < w.exercises.length then
      let ex := w.exercises.get ⟨exerciseIndex, h⟩
      if h2 : setIndex < ex.loggedSets.length then
        let st := ex.loggedSets.get ⟨setIndex, h2⟩
        let st2 := match field with
          | SetField.reps => { st with reps := value }
          | SetField.weight => { st with weight := value }
        some { s with
          activeWorkout := some { w with
            exercises := w.exercises.set exerciseIndex
              { ex with loggedSets := ex.loggedSets.set setIndex st2 } } }
      else none
    else none

/-- JavaScript `a || b` on strings: the empty string is falsy. -/
def jsOr (a b : String) : String := if a = "" then b else a

/-- The `workoutLog` record literal of `handleFinishWorkout` (App.js lines
291-301): the session spread, the final body weight / notes, `endTime`,
`isCompleted: true`, and each exercise's `loggedSets` filtered to the
completed entries. -/
def buildWorkoutLog (w : ActiveWorkout) (bwInput notesInput : String)
    (endTime : Nat) : WorkoutLog :=
  { templateId := w.templateId, name := w.name, startTime := w.startTime,
    bodyWeight := jsOr bwInput (jsOr w.bodyWeight ""),
    notes := jsOr notesInput (jsOr w.notes ""),
    exercises := w.exercises.map
      (fun ex => { ex with loggedSets := ex.loggedSets.filter (fun st => st.completed) }),
    isCompleted := true, endTime := endTime }

/-- Result of a `handleFinishWorkout` call: the app state afterwards, the
log record durably appended (if any), and the surfaced error (if any). -/
structure FinishOutcome where
  state : AppState
  appended : Option WorkoutLog
  error : Option AppError
  deriving DecidableEq

/-- `handleFinishWorkout` (App.js lines 285-316).  With no active workout the
guard returns silently.  Otherwise the log is built and handed to `addDoc`;
only on success are the session cleared, the screen switched, the timer
stopped and the buffers reset — the `catch` branch touches nothing. -/
def handleFinishWorkout (appendOk : Bool) (endTime : Nat) (s : AppState) :
    FinishOutcome :=
  match s.activeWorkout with
  | none => { state := s, appended := none, error := none }
  | some w =>
    let log := buildWorkoutLog w s.bodyWeight s.workoutNotes endTime
    if appendOk then
      let s2 : AppState :=
        { s with activeWorkout := none, currentScreen := "home",
                 timer := stopTimer, bodyWeight := "", workoutNotes := "",
                 showBodyWeightInput := false }
      { state := s2, appended := some log, error := none }
    else
      { state := s, appended := none, error := some AppError.persistenceError }

/-! Concrete fixtures used by scenario conjuncts, counterexamples and
witnesses. -/

def benchTex : TemplateExercise :=
  { id := "ex1", name := "Bench", targetSets := "3", targetReps := "10",
    targetWeight := "135" }

def pushDay : WorkoutTemplate :=
  { id := "w1", name := "Push Day", exercises := [benchTex] }

def idleState : AppState :=
  { activeWorkout := none, timer := stopTimer, bodyWeight := "",
    workoutNotes := "", showBodyWeightInput := false, currentScreen := "home" }

def benchSession : SessionExercise :=
  { id := "ex1", name := "Bench", targetSets := "3", targetReps := "10",
    targetWeight := "135",
    loggedSets := [emptyLoggedSet, emptyLoggedSet, emptyLoggedSet] }

def sessionPush : ActiveWorkout :=
  { templateId := "w1", name := "Push Day", startTime := 1, bodyWeight := "",
    notes := "", exercises := [benchSession], isCompleted := false }

def activeState1 : AppState :=
  { activeWorkout := some sessionPush, timer := stopTimer, bodyWeight := "",
    workoutNotes := "", showBodyWeightInput := true,
    currentScreen := "activeWorkout" }

def squatTex : TemplateExercise :=
  { id := "ex2", name := "Squat", targetSets := "2", targetReps := "5",
    targetWeight := "225" }

def squatDay : WorkoutTemplate :=
  { id := "w2", name := "Leg Day", exercises := [squatTex] }

def squatExs : List SessionExercise :=
  [{ id := "ex2", name := "Squat", targetSets := "2", targetReps := "5",
     targetWeight := "225", loggedSets := [emptyLoggedSet, emptyLoggedSet] }]

def sessionSquat : ActiveWorkout :=
  { templateId := "w2", name := "Leg Day", startTime := 5, bodyWeight := "",
    notes := "", exercises := squatExs, isCompleted := false }

def afterSecondStart : AppState :=
  { activeWorkout := some sessionSquat, timer := stopTimer, bodyWeight := "",
    workoutNotes := "", showBodyWeightInput := true,
    currentScreen := "activeWorkout" }

/-- A session whose only exercise has one completed and two uncompleted sets. -/
def benchLogged : SessionExercise :=
  { id := "ex1", name := "Bench", targetSets := "3", targetReps := "10",
    targetWeight := "135",
    loggedSets := [{ reps := "10", weight := "135", completed := true },
                   emptyLoggedSet, emptyLoggedSet] }

def wC2 : ActiveWorkout :=
  { templateId := "w1", name := "Push Day", startTime := 1, bodyWeight := "",
    notes := "", exercises := [benchLogged], isCompleted := false }

def sC2 : AppState :=
  { activeWorkout := some wC2, timer := startTimer 180, bodyWeight := "170",
    workoutNotes := "felt strong", showBodyWeightInput := false,
    currentScreen := "activeWorkout" }

/-- The log `finish(bodyWeight=170, notes="felt strong")` produces on `sC2`. -/
def logC2 : WorkoutLog :=
  { templateId := "w1", name := "Push Day", startTime := 1,
    bodyWeight := "170", notes := "felt strong",
    exercises := [{ id := "ex1", name := "Bench", targetSets := "3",
                    targetReps := "10", targetWeight := "135",
                    loggedSets := [{ reps := "10", weight := "135",
                                     completed := true }] }],
    isCompleted := true, endTime := 2 }

/-- An exercise whose first set has reps and weight typed in but not yet
logged. -/
def benchEntered : SessionExercise :=
  { id := "ex1", name := "Bench", targetSets := "3", targetReps := "10",
    targetWeight := "135",
    loggedSets := [{ reps := "10", weight := "135", completed := false },
                   emptyLoggedSet, emptyLoggedSet] }

def wC6 : ActiveWorkout :=
  { templateId := "w1", name := "Push Day", startTime := 1, bodyWeight := "",
    notes := "", exercises := [benchEntered], isCompleted := false }

def sC6 : AppState :=
  { activeWorkout := some wC6, timer := stopTimer, bodyWeight := "",
    workoutNotes := "", showBodyWeightInput := false,
    currentScreen := "activeWorkout" }

def benchEnteredDone : SessionExercise :=
  { benchEntered with
    loggedSets := [{ reps := "10", weight := "135", completed := true },
                   emptyLoggedSet, emptyLoggedSet] }

def sC6After : AppState :=
  { sC6 with activeWorkout := some { wC6 with exercises := [benchEnteredDone] },
             timer := startTimer 180 }

/-- A session whose only exercise has a single (uncompleted) set. -/
def exC7 : SessionExercise :=
  { id := "ex1", name := "Bench", targetSets := "1", targetReps := "10",
    targetWeight := "135", loggedSets := [emptyLoggedSet] }

def wC7 : ActiveWorkout :=
  { templateId := "w1", name := "Push Day", startTime := 1, bodyWeight := "",
    notes := "", exercises := [exC7], isCompleted := false }

def sC7 : AppState :=
  { activeWorkout := some wC7, timer := stopTimer, bodyWeight := "",
    workoutNotes := "", showBodyWeightInput := false,
    currentScreen := "activeWorkout" }

def exC7Extended : SessionExercise :=
  { exC7 with loggedSets := [emptyLoggedSet,
                             { reps := "8", weight := "100", completed := true }] }

def sC7After : AppState :=
  { sC7 with activeWorkout := some { wC7 with exercises := [exC7Extended] },
             timer := startTimer 180 }

/-- A template exercise whose targetSets parses to 2^32, the first integer
`Array(n)` rejects. -/
def hugeTex : TemplateExercise :=
  { id := "e9", name := "Mega", targetSets := "4294967296", targetReps := "10",
    targetWeight := "" }

def hugeDay : WorkoutTemplate :=
  { id := "w9", name := "Mega Day", exercises := [hugeTex] }

/-- A template exercise whose targetSets parses to a negative integer. -/
def negTex : TemplateExercise :=
  { id := "ng", name := "Row", targetSets := "-2", targetReps := "8",
    targetWeight := "" }

def negDay : WorkoutTemplate :=
  { id := "wneg", name := "Neg Day", exercises := [negTex] }

/-- Exercises whose targetSets values are empty, zero and non-numeric. -/
def fallbackTexA : TemplateExercise :=
  { id := "fa", name := "Row A", targetSets := "", targetReps := "8",
    targetWeight := "" }

def fallbackTexB : TemplateExercise :=
  { id := "fb", name := "Row B", targetSets := "0", targetReps := "8",
    targetWeight := "" }

def fallbackTexC : TemplateExercise :=
  { id := "fc", name := "Row C", targetSets := "abc", targetReps := "8",
    targetWeight := "" }

def fallbackDay : WorkoutTemplate :=
  { id := "wf", name := "Fallback Day",
    exercises := [fallbackTexA, fallbackTexB, fallbackTexC] }

/-! Claim theorems. -/

/-- C1 (counterexample): with a session already Active, `handleStartWorkout`
does not fail with any error — it succeeds and replaces the existing
ActiveSession, so the claim "start while Active fails with ConflictError and
leaves the existing session unchanged" is false at this input. -/
theorem start_while_active_replaces_cex :
    handleStartWorkout squatDay 5 activeState1 = some afterSecondStart ∧
    afterSecondStart.activeWorkout ≠ activeState1.activeWorkout := by
  exact ⟨by decide, by decide⟩

/-- C1 (amended): `handleStartWorkout` never checks for an existing Active
session and raises no ConflictError: whenever the template's exercises seed
successfully, it succeeds for every prior state and unconditionally installs
the freshly built session, discarding any previous one — at most one
ActiveSession exists only because the old one is overwritten. -/
theorem start_never_conflicts :
    ∀ (t : WorkoutTemplate) (now : Nat) (s : AppState)
      (exs : List SessionExercise),
      buildSessionExercises t.exercises = some exs →
      handleStartWorkout t now s = some { s with
        activeWorkout := some { templateId := t.id, name := t.name,
                                startTime := now, bodyWeight := "",
                                notes := "", exercises := exs,
                                isCompleted := false },
        workoutNotes := "", bodyWeight := "", showBodyWeightInput := true,
        currentScreen := "activeWorkout" } := by
  intro t now s exs h
  unfold handleStartWorkout
  rw [h]

/-- C1 (witness): the amended theorem applied to a state that already holds
an Active session. -/
theorem start_never_conflicts_witness :
    handleStartWorkout squatDay 5 activeState1 = some afterSecondStart := by
  have h := start_never_conflicts squatDay 5 activeState1 squatExs (by decide)
  rw [h]
  decide

/-- C3 (confirmed): when the Log Sync append fails, `handleFinishWorkout`
returns the state entirely unchanged (the session stays Active with every
field intact, timer and buffers untouched), appends nothing, and surfaces
the failure as a PersistenceError. -/
theorem finish_failure_preserves_session :
    ∀ (s : AppState) (w : ActiveWorkout) (endTime : Nat),
      s.activeWorkout = some w →
      handleFinishWorkout false endTime s =
        { state := s, appended := none,
          error := some AppError.persistenceError } := by
  intro s w endTime hw
  unfold handleFinishWorkout
  rw [hw]
  rfl

/-- C3 (witness): a failed finish on a concrete Active state. -/
theorem finish_failure_preserves_session_witness :
    handleFinishWorkout false 2 activeState1 =
      { state := activeState1, appended := none,
        error := some AppError.persistenceError } :=
  finish_failure_preserves_session activeState1 sessionPush 2 rfl

/-- C8 (counterexample): `pauseTimer` on a non-running timer does not fail
with InvalidStateError and does not leave the timer unchanged — it sets the
paused flag. -/
theorem pause_when_not_running_cex :
    pauseTimer { timerActive := false, timerPaused := false,
                 timerSeconds := 180 } =
      { timerActive := false, timerPaused := true, timerSeconds := 180 } ∧
    pauseTimer { timerActive := false, timerPaused := false,
                 timerSeconds := 180 } ≠
      { timerActive := false, timerPaused := false, timerSeconds := 180 } := by
  exact ⟨by decide, by decide⟩

/-- C8 (amended): `pauseTimer` performs no running check and never fails: it
sets `timerPaused` unconditionally, leaving `timerActive` and
`timerSeconds` unchanged; when it is applied the countdown is frozen (a tick
on the paused timer is a no-op) without changing `remainingSeconds`. -/
theorem pause_sets_paused_unconditionally :
    ∀ t : TimerState,
      pauseTimer t = { timerActive := t.timerActive, timerPaused := true,
                       timerSeconds := t.timerSeconds } ∧
      (pauseTimer t).timerSeconds = t.timerSeconds ∧
      tick (pauseTimer t) = pauseTimer t := by
  intro t
  refine ⟨rfl, rfl, ?_⟩
  unfold tick pauseTimer
  simp

/-- C9 (confirmed): `formatTime` renders minutes, a colon, then the seconds
component `total % 60` zero-padded to exactly two characters; 180 seconds
formats as "3:00" with a two-digit seconds field. -/
theorem format_time_pads_seconds :
    ∀ n : Nat,
      (formatTime n = toString (n / 60) ++ ":" ++
          ((if n % 60 < 10 then "0" else "") ++ toString (n % 60)) ∧
        ((if n % 60 < 10 then "0" else "") ++ toString (n % 60)).length = 2) ∧
      formatTime 180 = "3:00" := by
  intro n
  refine ⟨⟨rfl, ?_⟩, by decide⟩
  have h60 : n % 60 < 60 := Nat.mod_lt _ (by norm_num)
  have key : ∀ m : Nat, m < 60 →
      ((if m < 10 then "0" else "") ++ toString m).length = 2 := by decide
  exact key _ h60

/-- C10 (counterexample): a targetSets of "-2" parses to the (non-positive)
integer -2, and `handleStartWorkout` then throws (Array(-2) is a RangeError)
instead of seeding one placeholder set. -/
theorem start_negative_target_sets_cex :
    jsParseInt "-2" = some (-2) ∧
    handleStartWorkout negDay 0 idleState = none := by
  exact ⟨by decide, by decide⟩

/-- C10 (amended): when targetSets parses to NaN (empty or non-numeric
input) or to 0, the `|| 1` fallback makes the seeding produce exactly one
empty uncompleted placeholder; on a whole template with such exercises,
start seeds each of them with exactly one placeholder.  (A negative parse
instead makes `Array()` throw.) -/
theorem target_sets_fallback_seeds_one :
    (∀ ts : String, jsParseInt ts = none ∨ jsParseInt ts = some 0 →
        mkLoggedSets ts = some [emptyLoggedSet]) ∧
    (handleStartWorkout fallbackDay 0 idleState).map
        (fun s2 => s2.activeWorkout.map
          (fun w => w.exercises.map (fun ex => ex.loggedSets))) =
      some (some [[emptyLoggedSet], [emptyLoggedSet], [emptyLoggedSet]]) := by
  refine ⟨?_, by decide⟩
  intro ts h
  rcases h with h | h <;> unfold mkLoggedSets <;> rw [h] <;> decide

/-- C10 (witness): the empty targetSets string seeds one placeholder. -/
theorem target_sets_fallback_seeds_one_witness :
    mkLoggedSets "" = some [emptyLoggedSet] :=
  target_sets_fallback_seeds_one.1 "" (Or.inl (by decide))

/-- C2 (confirmed): the WorkoutLog built by a successful finish has, per
exercise, exactly the session's completed loggedSets in order (a filter on
`completed`), hence never an uncompleted set; finishing a session whose only
exercise has 1 completed and 2 uncompleted sets yields a log whose exercise
has one logged set. -/
theorem finish_filters_completed_sets :
    (∀ (s : AppState) (w : ActiveWorkout) (endTime : Nat) (log : WorkoutLog),
        s.activeWorkout = some w →
        (handleFinishWorkout true endTime s).appended = some log →
          log.exercises.length = w.exercises.length ∧
          (∀ (i : Nat) (h1 : i < log.exercises.length)
              (h2 : i < w.exercises.length),
            (log.exercises.get ⟨i, h1⟩).loggedSets =
              (w.exercises.get ⟨i, h2⟩).loggedSets.filter
                (fun st => st.completed)) ∧
          (∀ ex ∈ log.exercises, ∀ st ∈ ex.loggedSets,
            st.completed = true)) ∧
    (handleFinishWorkout true 2 sC2).appended.map
        (fun log => log.exercises.map (fun ex => ex.loggedSets.length)) =
      some [1] := by
  refine ⟨?_, by decide⟩
  intro s w endTime log hw happ
  unfold handleFinishWorkout at happ
  rw [hw] at happ
  have hlog : log = buildWorkoutLog w s.bodyWeight s.workoutNotes endTime := by
    simpa using happ.symm
  subst hlog
  refine ⟨?_, ?_, ?_⟩
  · simp [buildWorkoutLog]
  · intro i h1 h2
    simp [buildWorkoutLog]
  · intro ex hex st hst
    simp only [buildWorkoutLog, List.mem_map] at hex
    obtain ⟨ex0, _, rfl⟩ := hex
    simpa using (List.mem_filter.1 hst).2

/-- C2 (witness): the general theorem applied to the 1-completed /
2-uncompleted fixture. -/
theorem finish_filters_completed_sets_witness :
    logC2.exercises.length = wC2.exercises.length :=
  (finish_filters_completed_sets.1 sC2 wC2 2 logC2 rfl (by decide)).1

set_option maxRecDepth 8000 in
/-- C5 (confirmed): while running and not paused a tick decrements
`timerSeconds` by exactly 1; when the count reaches 0 the timer auto-stops
(`timerActive` becomes false) and the count stays at 0 (ticks on a stopped
timer are no-ops, no reset to 180); start(90), 30 ticks → 60; pause, 10
ticks → still 60; resume, 60 ticks → 0 with running = false. -/
theorem timer_tick_semantics :
    (∀ t : TimerState, t.timerActive = true → t.timerPaused = false →
        1 ≤ t.timerSeconds →
        (tick t).timerSeconds = t.timerSeconds - 1 ∧
        ((tick t).timerSeconds = 0 → (tick t).timerActive = false) ∧
        (1 ≤ (tick t).timerSeconds →
          (tick t).timerActive = true ∧ (tick t).timerPaused = false)) ∧
    (∀ t : TimerState, t.timerActive = false → tick t = t) ∧
    ((ticks 30 (startTimer 90)).timerSeconds = 60 ∧
      (ticks 10 (pauseTimer (ticks 30 (startTimer 90)))).timerSeconds = 60 ∧
      ticks 10 (pauseTimer (ticks 30 (startTimer 90))) =
        pauseTimer (ticks 30 (startTimer 90)) ∧
      (ticks 60 (resumeTimer (ticks 10 (pauseTimer
        (ticks 30 (startTimer 90)))))).timerSeconds = 0 ∧
      (ticks 60 (resumeTimer (ticks 10 (pauseTimer
        (ticks 30 (startTimer 90)))))).timerActive = false) := by
  refine ⟨?_, ?_, by decide⟩
  · intro t ha hp hs
    obtain ⟨a, p, n⟩ := t
    simp only at ha hp
    subst ha
    subst hp
    by_cases hle : n ≤ 1
    · have hn : n = 1 := le_antisymm hle hs
      subst hn
      refine ⟨by simp [tick], by simp [tick], by simp [tick]⟩
    · refine ⟨by simp [tick, hle], ?_, ?_⟩
      · intro h0
        simp [tick, hle] at h0
        omega
      · intro _
        simp [tick, hle]
  · intro t ha
    unfold tick
    rw [ha]
    simp

/-- C5 (witness): the tick law applied to a freshly started 90-second
timer. -/
theorem timer_tick_semantics_witness :
    (tick (startTimer 90)).timerSeconds = 89 := by
  have h := (timer_tick_semantics.1 (startTimer 90) rfl rfl (by decide)).1
  simpa [startTimer] using h

/-- C6 (confirmed): on in-range indices, `handleLogSet` called with the
record's current reps/weight (as the UI does, App.js line 498) replaces the
targeted set by the same reps/weight with `completed = true`, leaves every
other set and state field alone, and restarts the rest timer at the default
180 seconds; logSet(0,0) on a set holding reps 10 / weight 135 yields
`{reps: 10, weight: 135, completed: true}` and `startTimer 180`. -/
theorem log_set_completes_and_starts_timer :
    (∀ (s : AppState) (w : ActiveWorkout) (ei si : Nat)
        (_hw : s.activeWorkout = some w) (hei : ei < w.exercises.length)
        (hsi : si < (w.exercises.get ⟨ei, hei⟩).loggedSets.length),
        handleLogSet ei si
            ((w.exercises.get ⟨ei, hei⟩).loggedSets.get ⟨si, hsi⟩).reps
            ((w.exercises.get ⟨ei, hei⟩).loggedSets.get ⟨si, hsi⟩).weight s =
          some { s with
            activeWorkout := some { w with
              exercises := w.exercises.set ei
                { w.exercises.get ⟨ei, hei⟩ with
                  loggedSets := (w.exercises.get ⟨ei, hei⟩).loggedSets.set si
                    { reps := ((w.exercises.get ⟨ei, hei⟩).loggedSets.get
                        ⟨si, hsi⟩).reps,
                      weight := ((w.exercises.get ⟨ei, hei⟩).loggedSets.get
                        ⟨si, hsi⟩).weight,
                      completed := true } } },
            timer := startTimer 180 }) ∧
    handleLogSet 0 0 "10" "135" sC6 = some sC6After := by
  refine ⟨?_, by decide⟩
  intro s w ei si hw hei hsi
  simp only [handleLogSet, hw, jsArrayWrite]
  rw [dif_pos hei]
  simp only [if_pos hsi]

/-- C6 (witness): the general theorem applied to the concrete entered-set
fixture. -/
theorem log_set_completes_and_starts_timer_witness :
    handleLogSet 0 0 "10" "135" sC6 = some sC6After := by
  have h := log_set_completes_and_starts_timer.1 sC6 wC6 0 0 rfl
    (by decide) (by decide)
  revert h
  decide

/-- C7 (counterexample): `handleLogSet` with an out-of-range setIndex (1,
on a 1-set exercise) neither fails with IndexError nor leaves the session
unchanged — the JS index assignment extends the array and the call
succeeds. -/
theorem log_set_out_of_range_no_error_cex :
    exC7.loggedSets.length = 1 ∧
    handleLogSet 0 1 "8" "100" sC7 = some sC7After ∧
    sC7After ≠ sC7 := by
  exact ⟨rfl, by decide, by decide⟩

/-- C7 (amended): `handleSetInputChange` with an out-of-range exerciseIndex
or setIndex throws a TypeError (not a surfaced IndexError) without touching
the session, and `handleLogSet` with an out-of-range exerciseIndex throws
likewise; but `handleLogSet` with an in-range exerciseIndex and an
out-of-range setIndex does not fail at all — the assignment extends the
array. -/
theorem set_logger_index_behavior :
    (∀ (s : AppState) (w : ActiveWorkout) (ei si : Nat) (f : SetField)
        (v : String),
        s.activeWorkout = some w → w.exercises.length ≤ ei →
        handleSetInputChange ei si f v s = none) ∧
    (∀ (s : AppState) (w : ActiveWorkout) (ei si : Nat) (f : SetField)
        (v : String) (hei : ei < w.exercises.length),
        s.activeWorkout = some w →
        (w.exercises.get ⟨ei, hei⟩).loggedSets.length ≤ si →
        handleSetInputChange ei si f v s = none) ∧
    (∀ (s : AppState) (w : ActiveWorkout) (ei si : Nat) (r wt : String),
        s.activeWorkout = some w → w.exercises.length ≤ ei →
        handleLogSet ei si r wt s = none) ∧
    (∀ (s : AppState) (w : ActiveWorkout) (ei si : Nat) (r wt : String)
        (hei : ei < w.exercises.length),
        s.activeWorkout = some w →
        (w.exercises.get ⟨ei, hei⟩).loggedSets.length ≤ si →
        (handleLogSet ei si r wt s).isSome = true) := by
  refine ⟨?_, ?_, ?_, ?_⟩
  · intro s w ei si f v hw hle
    simp only [handleSetInputChange, hw]
    rw [dif_neg (not_lt.2 hle)]
  · intro s w ei si f v hei hw hle
    simp only [handleSetInputChange, hw]
    rw [dif_pos hei]
    rw [dif_neg (not_lt.2 hle)]
  · intro s w ei si r wt hw hle
    simp only [handleLogSet, hw]
    rw [dif_neg (not_lt.2 hle)]
  · intro s w ei si r wt hei hw hle
    simp only [handleLogSet, hw]
    rw [dif_pos hei]
    rfl

/-- C7 (witness): the two behaviours at concrete inputs — an out-of-range
setIndex on logSet succeeds, an out-of-range exerciseIndex on
updateSetField fails. -/
theorem set_logger_index_behavior_witness :
    (handleLogSet 0 1 "8" "100" sC7).isSome = true ∧
    handleSetInputChange 2 0 SetField.reps "5" sC7 = none := by
  exact ⟨set_logger_index_behavior.2.2.2 sC7 wC7 0 1 "8" "100" (by decide)
           rfl (by decide),
         set_logger_index_behavior.1 sC7 wC7 2 0 SetField.reps "5" rfl
           (by decide)⟩

/-- Helper: a positive in-range parse of targetSets seeds exactly that many
placeholder sets. -/
theorem mkLoggedSets_pos (ts : String) (k : Nat) (hk : 0 < k)
    (hlt : (k : Int) < 4294967296) (hp : jsParseInt ts = some (k : Int)) :
    mkLoggedSets ts = some (List.replicate k emptyLoggedSet) := by
  have hne : (k : Int) ≠ 0 := by exact_mod_cast hk.ne'
  have hj : jsOrOne (some (k : Int)) = (k : Int) := by
    show (if (k : Int) = 0 then (1 : Int) else (k : Int)) = (k : Int)
    exact if_neg hne
  unfold mkLoggedSets
  rw [hp, hj]
  rw [if_pos ⟨Int.natCast_nonneg k, hlt⟩]
  simp

/-- Helper: `buildSessionExercises` on a list of exercises whose targetSets
all parse to positive in-range integers succeeds and yields, in order, one
session exercise per template exercise, seeded with the parsed number of
empty placeholders. -/
theorem buildSessionExercises_spec :
    ∀ l : List TemplateExercise,
      (∀ ex ∈ l, ∃ k : Nat, 0 < k ∧ (k : Int) < 4294967296 ∧
        jsParseInt ex.targetSets = some (k : Int)) →
      ∃ exs : List SessionExercise, buildSessionExercises l = some exs ∧
        exs.length = l.length ∧
        (∀ (i : Nat) (h1 : i < exs.length) (h2 : i < l.length),
          (exs.get ⟨i, h1⟩).id = (l.get ⟨i, h2⟩).id ∧
          (exs.get ⟨i, h1⟩).name = (l.get ⟨i, h2⟩).name ∧
          jsParseInt (l.get ⟨i, h2⟩).targetSets =
            some ((exs.get ⟨i, h1⟩).loggedSets.length : Int) ∧
          ∀ ls ∈ (exs.get ⟨i, h1⟩).loggedSets, ls = emptyLoggedSet) := by
  intro l
  induction l with
  | nil =>
    intro _
    refine ⟨[], rfl, rfl, ?_⟩
    intro i h1 h2
    simp at h1
  | cons ex rest ih =>
    intro hall
    obtain ⟨k, hk, hlt, hp⟩ := hall ex (List.mem_cons_self ex rest)
    obtain ⟨tail, htail, hlen, hprops⟩ :=
      ih (fun e he => hall e (List.mem_cons_of_mem ex he))
    refine ⟨{ id := ex.id, name := ex.name, targetSets := ex.targetSets,
              targetReps := ex.targetReps, targetWeight := ex.targetWeight,
              loggedSets := List.replicate k emptyLoggedSet } :: tail,
            ?_, ?_, ?_⟩
    · simp only [buildSessionExercises, mkLoggedSets_pos ex.targetSets k hk hlt hp,
                 htail]
    · simp [hlen]
    · intro i h1 h2
      cases i with
      | zero =>
        refine ⟨rfl, rfl, ?_, ?_⟩
        · show jsParseInt ex.targetSets =
            some ((List.replicate k emptyLoggedSet).length : Int)
          rw [hp, List.length_replicate]
        · intro ls hls
          exact List.eq_of_mem_replicate hls
      | succ j =>
        have h1' : j < tail.length := Nat.lt_of_succ_lt_succ h1
        have h2' : j < rest.length := Nat.lt_of_succ_lt_succ h2
        exact hprops j h1' h2'

/-- C4 (amended): for every template whose exercises each have a targetSets
parsing to a positive integer below 2^32 (the JS array-length bound),
`handleStartWorkout` succeeds from any prior state and builds an
ActiveSession with startTime assigned at creation and one SessionExercise
per template exercise in order, each with loggedSets of length equal to the
parsed targetSets whose entries are all the empty uncompleted placeholder. -/
theorem start_seeds_target_placeholders :
    ∀ (t : WorkoutTemplate) (now : Nat) (s : AppState),
      (∀ ex ∈ t.exercises, ∃ k : Nat, 0 < k ∧ (k : Int) < 4294967296 ∧
        jsParseInt ex.targetSets = some (k : Int)) →
      ∃ s2 : AppState, handleStartWorkout t now s = some s2 ∧
        ∃ w : ActiveWorkout, s2.activeWorkout = some w ∧
          w.templateId = t.id ∧ w.name = t.name ∧ w.startTime = now ∧
          w.bodyWeight = "" ∧ w.notes = "" ∧ w.isCompleted = false ∧
          w.exercises.length = t.exercises.length ∧
          (∀ (i : Nat) (h1 : i < w.exercises.length)
              (h2 : i < t.exercises.length),
            (w.exercises.get ⟨i, h1⟩).id = (t.exercises.get ⟨i, h2⟩).id ∧
            (w.exercises.get ⟨i, h1⟩).name =
              (t.exercises.get ⟨i, h2⟩).name ∧
            jsParseInt (t.exercises.get ⟨i, h2⟩).targetSets =
              some ((w.exercises.get ⟨i, h1⟩).loggedSets.length : Int) ∧
            ∀ ls ∈ (w.exercises.get ⟨i, h1⟩).loggedSets,
              ls = emptyLoggedSet) := by
  intro t now s hall
  obtain ⟨exs, hexs, hlen, hprops⟩ := buildSessionExercises_spec t.exercises hall
  have hstart : handleStartWorkout t now s = some { s with
      activeWorkout := some { templateId := t.id, name := t.name,
                              startTime := now, bodyWeight := "", notes := "",
                              exercises := exs, isCompleted := false },
      workoutNotes := "", bodyWeight := "", showBodyWeightInput := true,
      currentScreen := "activeWorkout" } := by
    unfold handleStartWorkout
    rw [hexs]
  exact ⟨_, hstart, _, rfl, rfl, rfl, rfl, rfl, rfl, rfl, hlen, hprops⟩

/-- C4 (counterexample): a targetSets of 2^32 is a positive integer, yet
start throws (Array(2^32) is a RangeError) instead of building a session. -/
theorem start_huge_target_sets_cex :
    jsParseInt "4294967296" = some 4294967296 ∧
    (0 : Int) < 4294967296 ∧
    handleStartWorkout hugeDay 0 idleState = none := by
  exact ⟨by decide, by decide, by decide⟩

/-- C4 (witness): the amended theorem applied to the Push Day template. -/
theorem start_seeds_target_placeholders_witness :
    (handleStartWorkout pushDay 0 idleState).isSome = true := by
  obtain ⟨s2, hs2, _⟩ := start_seeds_target_placeholders pushDay 0 idleState
    (by intro ex hex
        have hx : ex = benchTex := by simpa [pushDay] using hex
        subst hx
        exact ⟨3, by norm_num, by norm_num, by decide⟩)
  rw [hs2]
  rfl
